import Mathlib

/-!
# Verification of the compas_timber joint topology solver and butt-joint engine

Shallow embedding, over ℚ, of the connection solver
(`src/compas_timber/connections/solver.py`) and of the scalar/branching parts of the
butt-joint geometry engine (`src/compas_timber/connections/butt_joint.py`,
`t_butt.py`, `l_butt.py`, `french_ridge_lap.py`).

Embedding conventions:
* Points and vectors are rational triples (`Vec3`).  The Python floats are modelled
  by ℚ.
* Euclidean distances and segment lengths are irrational (square roots), so every
  comparison `dist < bound` from the source is embedded in the equivalent squared
  form `distSq < bound ^ 2`; all bounds compared against (`max_distance`,
  `max_distance + tol`, `tol`) are nonnegative in every call site, which makes the
  squared comparison equivalent to the original one.
* The two angle tests of `ConnectionSolver.find_topology` (`angle_vectors(va, vb)`
  against `1e-3`/`pi - 1e-3` at solver.py:163-168, and `angle_vectors(vA, vB) < tol`
  at solver.py:191-194) are transcendental; the classifier takes their Boolean
  outcomes as parameters (`parallel`, `sameDir`) and applies them exactly where the
  source applies them.  The claims under verification hypothesise those branch
  conditions in the same terms.
-/

namespace CompasTimber

/-- A 3D point / vector with rational coordinates. -/
structure Vec3 where
  x : ℚ
  y : ℚ
  z : ℚ
deriving DecidableEq, Repr

/-- compas.geometry.add_vectors -/
def vadd (u v : Vec3) : Vec3 := ⟨u.x + v.x, u.y + v.y, u.z + v.z⟩

/-- compas.geometry.subtract_vectors -/
def vsub (u v : Vec3) : Vec3 := ⟨u.x - v.x, u.y - v.y, u.z - v.z⟩

/-- compas.geometry.scale_vector -/
def vscale (c : ℚ) (v : Vec3) : Vec3 := ⟨c * v.x, c * v.y, c * v.z⟩

/-- compas.geometry.dot_vectors -/
def vdot (u v : Vec3) : ℚ := u.x * v.x + u.y * v.y + u.z * v.z

/-- compas.geometry.cross_vectors -/
def vcross (u v : Vec3) : Vec3 :=
  ⟨u.y * v.z - u.z * v.y, u.z * v.x - u.x * v.z, u.x * v.y - u.y * v.x⟩

/-- Squared Euclidean distance between two points (`distance_point_point` squared;
the source compares the distance with nonnegative bounds only, so the squared form
is an equivalent embedding). -/
def distSq (p q : Vec3) : ℚ := vdot (vsub p q) (vsub p q)

/-! ## Topology solver (`ConnectionSolver`, solver.py) -/

/-- `JointTopology` enumeration (solver.py:44-61). -/
inductive Topo where
  | unknown
  | topoI
  | topoL
  | topoT
  | topoX
deriving DecidableEq, Repr

/-- Which of the two input beams occupies an output slot of `find_topology`. -/
inductive BeamRef where
  | A
  | B
deriving DecidableEq, Repr

/-- `ConnectionSolver.TOLERANCE = 1e-6` (solver.py:89); `find_topology` overwrites
its `tol` argument with this constant (solver.py:155). -/
def solverTol : ℚ := 1 / 1000000

/-- `ConnectionSolver._exceed_max_distance` (solver.py:258-265), in squared form:
with a `max_distance` given, the distance exceeds it; with `None`, the distance
exceeds `tol`. -/
def exceedMaxDistance (pa pb : Vec3) (maxDistance : Option ℚ) (tol : ℚ) : Bool :=
  match maxDistance with
  | some m => decide (m ^ 2 < distSq pa pb)
  | none => decide (tol ^ 2 < distSq pa pb)

/-- `ConnectionSolver._is_near_end` (solver.py:267-269), in squared form:
`|t| * length < max_distance + tol or |1 - t| * length < max_distance + tol`
becomes `t ^ 2 * lengthSq < (max_distance + tol) ^ 2 ∨ ...` (the centreline length
is the square root of `lengthSq`; the right-hand side is nonnegative in every call
site). -/
def isNearEnd (t lengthSq maxDistance tol : ℚ) : Bool :=
  decide (t ^ 2 * lengthSq < (maxDistance + tol) ^ 2) ||
    decide ((1 - t) ^ 2 * lengthSq < (maxDistance + tol) ^ 2)

/-- `ConnectionSolver._calc_t` (solver.py:248-256): parameter of the point where
the line `(a, b)` crosses the plane `(o, n)`.  (In ℚ a zero denominator yields 0;
the source comments that parallel lines are filtered out before the call, and for
non-parallel centrelines the denominator is `|va × vb|² ≠ 0`.) -/
def calcT (a b o n : Vec3) : ℚ :=
  -(vdot n (vsub a o)) / vdot n (vsub b a)

/-- `vna = cross_vectors(va, vn)` with `vn = cross_vectors(va, vb)` (solver.py:199-200). -/
def normalRefA (a1 a2 b1 b2 : Vec3) : Vec3 :=
  vcross (vsub a2 a1) (vcross (vsub a2 a1) (vsub b2 b1))

/-- `vnb = cross_vectors(vb, vn)` with `vn = cross_vectors(va, vb)` (solver.py:199-201). -/
def normalRefB (a1 a2 b1 b2 : Vec3) : Vec3 :=
  vcross (vsub b2 b1) (vcross (vsub a2 a1) (vsub b2 b1))

/-- `ta = self._calc_t([a1, a2], [b1, vnb])` (solver.py:203). -/
def tParamA (a1 a2 b1 b2 : Vec3) : ℚ := calcT a1 a2 b1 (normalRefB a1 a2 b1 b2)

/-- `tb = self._calc_t([b1, b2], [a1, vna])` (solver.py:205). -/
def tParamB (a1 a2 b1 b2 : Vec3) : ℚ := calcT b1 b2 a1 (normalRefA a1 a2 b1 b2)

/-- Contact point on beam A, clamped to the segment for the distance test
(solver.py:204, 209-212). -/
def clampedA (a1 a2 b1 b2 : Vec3) : Vec3 :=
  let ta := tParamA a1 a2 b1 b2
  if ta < 0 then a1
  else if 1 < ta then a2
  else vadd a1 (vscale ta (vsub a2 a1))

/-- Contact point on beam B, clamped to the segment for the distance test
(solver.py:206, 213-216). -/
def clampedB (a1 a2 b1 b2 : Vec3) : Vec3 :=
  let tb := tParamB a1 a2 b1 b2
  if tb < 0 then b1
  else if 1 < tb then b2
  else vadd b1 (vscale tb (vsub b2 b1))

/-- `xa = self._is_near_end(ta, beam_a.centerline.length, max_distance or 0, tol)`
(solver.py:222). -/
def nearEndA (a1 a2 b1 b2 : Vec3) (maxDistance : Option ℚ) : Bool :=
  isNearEnd (tParamA a1 a2 b1 b2) (distSq a1 a2) (maxDistance.getD 0) solverTol

/-- `xb = self._is_near_end(tb, beam_b.centerline.length, max_distance or 0, tol)`
(solver.py:223). -/
def nearEndB (a1 a2 b1 b2 : Vec3) (maxDistance : Option ℚ) : Bool :=
  isNearEnd (tParamB a1 a2 b1 b2) (distSq b1 b2) (maxDistance.getD 0) solverTol

/-- `closest_point_on_line(a1, [b1, b2])` (solver.py:172): orthogonal projection of
`p` onto the infinite line through `l1`, `l2`. -/
def closestOnLine (p l1 l2 : Vec3) : Vec3 :=
  let v := vsub l2 l1
  vadd l1 (vscale (vdot (vsub p l1) v / vdot v v) v)

/-- Endpoint selector: `[a1, a2][i]` with a Python index 0/1 as a Bool. -/
def endPt (p0 p1 : Vec3) (i : Bool) : Vec3 := if i then p1 else p0

/-- `comb = [[0, 0], [0, 1], [1, 0], [1, 1]]` (solver.py:177). -/
def endCombs : List (Bool × Bool) :=
  [(false, false), (false, true), (true, false), (true, true)]

/-- `meet = [not _exceed_max_distance(...) for ia, ib in comb]` (solver.py:178). -/
def meetFlags (a1 a2 b1 b2 : Vec3) (maxDistance : Option ℚ) : List Bool :=
  endCombs.map fun c =>
    ! exceedMaxDistance (endPt a1 a2 c.1) (endPt b1 b2 c.2) maxDistance solverTol

/-- `sum(meet)` (solver.py:179). -/
def meetCount (a1 a2 b1 b2 : Vec3) (maxDistance : Option ℚ) : ℕ :=
  (meetFlags a1 a2 b1 b2 maxDistance).count true

/-- `meeting_ends_idx = [c for c, m in zip(comb, meet) if m is True][0]`
(solver.py:183): the first meeting endpoint combination. -/
def firstMeet (a1 a2 b1 b2 : Vec3) (maxDistance : Option ℚ) : Option (Bool × Bool) :=
  ((endCombs.zip (meetFlags a1 a2 b1 b2 maxDistance)).find? fun p => p.2).map fun p => p.1

/-- Outgoing direction vector from the meeting end: `vA = subtract_vectors(pa2, pa1)`
with `pa1 = [a1, a2][ia]`, `pa2 = [a1, a2][not ia]` (solver.py:185-190). -/
def outgoingVec (p0 p1 : Vec3) (i : Bool) : Vec3 :=
  vsub (endPt p0 p1 (!i)) (endPt p0 p1 i)

/-- `ConnectionSolver.find_topology` (solver.py:131-238).

`parallel` is the outcome of the angle test of solver.py:163-168
(`angle_vectors(va, vb) < 1e-3 or > pi - 1e-3`); `sameDir` is the outcome of the
overlap test `angle_vectors(vA, vB) < tol` of solver.py:191-192, applied to the
outgoing vectors at the meeting ends.  Output: topology, and the role-ordered beams
(`none, none` for `TOPO_UNKNOWN`, matching the `None, None` of the source). -/
def findTopology (parallel : Bool) (sameDir : Vec3 → Vec3 → Bool)
    (a1 a2 b1 b2 : Vec3) (maxDistance : Option ℚ) :
    Topo × Option BeamRef × Option BeamRef :=
  if parallel then
    if exceedMaxDistance a1 (closestOnLine a1 b1 b2) maxDistance solverTol then
      (.unknown, none, none)
    else if meetCount a1 a2 b1 b2 maxDistance ≠ 1 then
      (.unknown, none, none)
    else
      match firstMeet a1 a2 b1 b2 maxDistance with
      | none => (.unknown, none, none)
      | some (ia, ib) =>
        if sameDir (outgoingVec a1 a2 ia) (outgoingVec b1 b2 ib) then
          (.unknown, none, none)
        else
          (.topoI, some .A, some .B)
  else
    if exceedMaxDistance (clampedA a1 a2 b1 b2) (clampedB a1 a2 b1 b2) maxDistance
        solverTol then
      (.unknown, none, none)
    else
      let xa := nearEndA a1 a2 b1 b2 maxDistance
      let xb := nearEndB a1 a2 b1 b2 maxDistance
      if xa && xb then (.topoL, some .A, some .B)
      else if xa then (.topoT, some .A, some .B)
      else if xb then (.topoT, some .B, some .A)
      else (.topoX, some .A, some .B)

/-! ## Feature bookkeeping of `add_features` (t_butt.py:68-112, l_butt.py:106-149)

Python objects are modelled by identity: every constructor call (`CutFeature(...)`,
`MillVolume(...)`, `DrillFeature(...)`, `BrepSubtraction(...)`) allocates a fresh
id drawn from a counter.  A beam's `features` list and the joint's own
`self.features` list hold such ids. -/

/-- Feature-list state of a two-beam joint: the main beam's attached features, the
cross beam's attached features, the joint's own `self.features` bookkeeping list,
and the allocation counter for object identities. -/
structure FeatState where
  mainFeats : List ℕ
  crossFeats : List ℕ
  jointFeats : List ℕ
  nextId : ℕ
deriving DecidableEq, Repr

/-- Modelled from the spec: `Beam.remove_features` is not under `src/` (the Beam
model lives outside the provided sources).  Per §6 "Beam mutation API": feature
removal detaches the given previously-attached feature objects from the beam's
feature list; objects not present in the list are simply not found, and features
attached by other joints are untouched. -/
def removeFeats (beamFeats fs : List ℕ) : List ℕ :=
  beamFeats.filter fun f => ! fs.contains f

/-- `TButtJoint.add_features` (t_butt.py:68-112), feature bookkeeping only.

Flags: `stepjoint`/`birdsmouth` as held by the joint when the method runs,
`millPos` for `self.mill_depth > 0`, `drillPos` for `self.drill_diameter > 0`,
`bmOk` for the result of `calc_params_birdsmouth()` (`calc_params_stepjoint()`
always returns `True`).  Geometry is irrelevant to the bookkeeping and is
abstracted into the fresh ids.  Faithful to the source:
* `self.main_beam.remove_features(self.features)` runs only on the main beam
  (t_butt.py:75-76);
* `self.features.append(cutting_plane)` stores the raw plane, not the attached
  `CutFeature` object (t_butt.py:101-102, 104-105);
* every other `append` re-runs a constructor, storing a fresh object distinct from
  the attached one (t_butt.py:87-92, 97-98, 107-108, 110-111). -/
def tbuttAddFeatures (stepjoint birdsmouth millPos drillPos bmOk : Bool)
    (s : FeatState) : FeatState :=
  -- if self.features: self.main_beam.remove_features(self.features)
  let s1 :=
    if s.jointFeats ≠ [] then { s with mainFeats := removeFeats s.mainFeats s.jointFeats }
    else s
  -- cutting_plane = self.get_main_next_cutting_plane()[0]
  let plane := s1.nextId
  let s2 := { s1 with nextId := s1.nextId + 1 }
  let s5 :=
    if stepjoint then
      -- calc_params_stepjoint() returns True; three BrepSubtraction features are
      -- attached (two on main, one on cross); each appended copy is a fresh object
      { s2 with
        mainFeats := s2.mainFeats ++ [s2.nextId, s2.nextId + 2],
        crossFeats := s2.crossFeats ++ [s2.nextId + 4],
        jointFeats := s2.jointFeats ++ [s2.nextId + 1, s2.nextId + 3, s2.nextId + 5],
        nextId := s2.nextId + 6 }
    else
      let s3 :=
        if birdsmouth && bmOk then
          -- BrepSubtraction(bm_sub_volume) attached; a fresh copy appended;
          -- mill_depth is set to 0 so the MillVolume branch below is skipped
          { s2 with
            mainFeats := s2.mainFeats ++ [s2.nextId],
            jointFeats := s2.jointFeats ++ [s2.nextId + 1],
            nextId := s2.nextId + 2 }
        else
          -- CutFeature(cutting_plane) attached; the raw plane object appended
          { s2 with
            mainFeats := s2.mainFeats ++ [s2.nextId],
            jointFeats := s2.jointFeats ++ [plane],
            nextId := s2.nextId + 1 }
      if millPos && !(birdsmouth && bmOk) then
        -- MillVolume attached to the cross beam; a fresh MillVolume appended
        { s3 with
          crossFeats := s3.crossFeats ++ [s3.nextId],
          jointFeats := s3.jointFeats ++ [s3.nextId + 1],
          nextId := s3.nextId + 2 }
      else s3
  if drillPos then
    -- DrillFeature attached to the cross beam; a fresh DrillFeature appended
    { s5 with
      crossFeats := s5.crossFeats ++ [s5.nextId],
      jointFeats := s5.jointFeats ++ [s5.nextId + 1],
      nextId := s5.nextId + 2 }
  else s5

/-- `LButtJoint.add_features` (l_butt.py:106-149), feature bookkeeping only.
`extendCross` is `self.extend_cross`.  Here the appended objects are the attached
`CutFeature` objects themselves (l_butt.py:141-143, 147-149), but
`remove_features` still runs only on the main beam (l_butt.py:114-115). -/
def lbuttAddFeatures (extendCross : Bool) (s : FeatState) : FeatState :=
  let s1 :=
    if s.jointFeats ≠ [] then { s with mainFeats := removeFeats s.mainFeats s.jointFeats }
    else s
  let s2 :=
    if extendCross then
      { s1 with
        crossFeats := s1.crossFeats ++ [s1.nextId],
        jointFeats := s1.jointFeats ++ [s1.nextId],
        nextId := s1.nextId + 1 }
    else s1
  { s2 with
    mainFeats := s2.mainFeats ++ [s2.nextId],
    jointFeats := s2.jointFeats ++ [s2.nextId],
    nextId := s2.nextId + 1 }

/-! ## Butt-joint engine scalar computations (butt_joint.py) -/

/-- Joint state relevant to `ButtJoint.__init__` (butt_joint.py:54-71) and
`ButtJoint.check_joint_boolean` (butt_joint.py:251-281). -/
structure ButtJointState where
  millDepth : ℚ
  drillDiameter : ℚ
  birdsmouth : Bool
  forceBirdsmouth : Bool
  stepjoint : Bool
deriving DecidableEq, Repr

/-- `ButtJoint.__init__` (butt_joint.py:54-71): `self.birdsmouth = birdsmouth`,
`self.force_birdsmouth = True`, but `self.stepjoint = False` — the `stepjoint`
argument is accepted and ignored. -/
def buttJointInit (millDepth drillDiameter : ℚ) (birdsmouth stepjoint : Bool) :
    ButtJointState :=
  { millDepth := millDepth
    drillDiameter := drillDiameter
    birdsmouth := birdsmouth
    forceBirdsmouth := true
    stepjoint := false }

/-- `TButtJoint.__init__` (t_butt.py:38-39) delegates to `ButtJoint.__init__`. -/
def tbuttJointInit (millDepth drillDiameter : ℚ) (birdsmouth stepjoint : Bool) :
    ButtJointState :=
  buttJointInit millDepth drillDiameter birdsmouth stepjoint

/-- The serialized fields consumed by `ButtJoint.__from_data__` (butt_joint.py:87-96). -/
structure ButtJointData where
  millDepth : ℚ
  drillDiameter : ℚ
  birdsmouth : Bool
  stepjoint : Bool
deriving DecidableEq, Repr

/-- `ButtJoint.__from_data__` (butt_joint.py:87-96): `cls(**value)` followed by
direct assignment of the stored fields, including `instance.stepjoint =
value["stepjoint"]`. -/
def buttJointFromData (v : ButtJointData) : ButtJointState :=
  let inst := buttJointInit v.millDepth v.drillDiameter v.birdsmouth v.stepjoint
  { inst with
    millDepth := v.millDepth
    drillDiameter := v.drillDiameter
    birdsmouth := v.birdsmouth
    stepjoint := v.stepjoint }

/-- `ButtJoint.check_joint_boolean` (butt_joint.py:251-281).

`dotCrossProdNormal` is the value
`abs(cross(main_dir, cross_dir).unitized() . cross_beam.frame.normal)`
(butt_joint.py:256-257); `dotFrameNormals` is
`dot_vectors(main_beam.frame.zaxis, cross_beam.frame.zaxis)` (butt_joint.py:268);
both are taken as parameters (unitization is a square root).  The guard
`(1 - threshhold_value) < dot_product_cp_crossbnormal < threshhold_value`
(butt_joint.py:258) is the Python chained comparison, i.e. the conjunction of the
two comparisons, translated literally.

`birdsmouthValidity` is the non-stepjoint branch (butt_joint.py:264-276): set
`stepjoint = False`, then, when `birdsmouth` is requested, validate it against
the frame-normal dot product. -/
def birdsmouthValidity (st : ButtJointState) (dotFrameNormals : ℚ) : ButtJointState :=
  if st.birdsmouth then
    if |dotFrameNormals| < 1 / 100 then { st with stepjoint := false, birdsmouth := false }
    else if 99 / 100 < |dotFrameNormals| ∧ |dotFrameNormals| < 101 / 100 then
      { st with stepjoint := false, birdsmouth := false }
    else { st with stepjoint := false, birdsmouth := true }
  else { st with stepjoint := false }

/-- `ButtJoint.check_joint_boolean` (butt_joint.py:251-281): the step-joint guard
followed by the `birdsmouthValidity` branch and the final `force_birdsmouth`
coercion (butt_joint.py:278-279). -/
def checkJointBoolean (st : ButtJointState) (dotCrossProdNormal dotFrameNormals : ℚ) :
    ButtJointState :=
  if st.stepjoint then
    if 1 - 1 / 1000 < dotCrossProdNormal ∧ dotCrossProdNormal < 1 / 1000 then
      { st with stepjoint := true, birdsmouth := false, millDepth := 0 }
    else
      { st with stepjoint := false }
  else
    if !(birdsmouthValidity st dotFrameNormals).forceBirdsmouth then
      { birdsmouthValidity st dotFrameNormals with birdsmouth := false }
    else
      birdsmouthValidity st dotFrameNormals

/-- Final pocket-length computation of `ButtJoint.subtraction_volume`
(butt_joint.py:214-218, 229): `sideLineDist` stands for
`distance_line_line(*side_lines)`, `tanPocketAngle` for `math.tan(pocket_angle)`,
`millDepth` for `self.mill_depth`; the recorded `btlx_params_cross["length"]` is
the sum `_len = sideLineDist + abs(tan * mill_depth)` floored at `61.5`. -/
def pocketLength (sideLineDist tanPocketAngle millDepth : ℚ) : ℚ :=
  if sideLineDist + |tanPocketAngle * millDepth| < 61.5 then 61.5
  else sideLineDist + |tanPocketAngle * millDepth|

/-- Canonicalization step of `ButtJoint.calc_params_birdsmouth`
(butt_joint.py:392-400): the raw values `Angle1`, `Angle2`, `Inclination1`,
`Inclination2` are emitted as-is when `Angle1 <= Angle2`, and otherwise the angles
are swapped while the inclinations become `(Inclination2, 180 - Inclination1)`.
Returns `(Angle1, Angle2, Inclination1, Inclination2)` as emitted into
`btlx_params_main` (butt_joint.py:401-410). -/
def birdsmouthCanon (angle1 angle2 incl1 incl2 : ℚ) : ℚ × ℚ × ℚ × ℚ :=
  if angle2 < angle1 then (angle2, angle1, incl2, 180 - incl1)
  else (angle1, angle2, incl1, incl2)

/-- The `(Inclination, StartX)` pair emitted by `ButtJoint.calc_params_drilling`. -/
structure DrillParams where
  inclination : ℚ
  startX : ℚ
deriving DecidableEq, Repr

/-- Branch structure of `ButtJoint.calc_params_drilling` (butt_joint.py:462-487)
that fixes the reported `Inclination` and `StartX`.

`inclination` is `projected_vec.angle(center_line_vec, True)` in degrees
(butt_joint.py:462), `startX` the raw start coordinate (butt_joint.py:451),
`crossWidth` = `self.cross_beam.width`, `sinInclination` stands for
`math.sin(math.radians(inclination))`, and `dotPositive` for
`dot_vectors(cross_dir, main_centerline) > 0` (butt_joint.py:476); the fixed edge
clearance `offset_from_edge` is `20.0` (butt_joint.py:465). -/
def calcParamsDrilling (inclination startX crossWidth sinInclination : ℚ)
    (dotPositive : Bool) : DrillParams :=
  if inclination = 0 then
    -- butt_joint.py:467-468: vertical fallback, StartX left untouched
    ⟨90, startX⟩
  else if inclination < 45 then
    let disp := crossWidth / 2 / sinInclination - 20
    let disp2 := if dotPositive then -disp else disp
    ⟨90, startX - disp2⟩
  else
    ⟨inclination, startX⟩

/-! ## L-Butt joint (l_butt.py) -/

/-- A face frame: origin, x-axis and y-axis (compas.geometry.Frame; the normal is
the implied z-axis). -/
structure Frame3 where
  point : Vec3
  xaxis : Vec3
  yaxis : Vec3
deriving DecidableEq, Repr

/-- `Frame(cfr.point, cfr.xaxis, cfr.yaxis * -1.0)` — the flipped-normal frame
built by `LButtJoint.get_main_cutting_plane` (l_butt.py:90). -/
def flipFrame (f : Frame3) : Frame3 := ⟨f.point, f.xaxis, vscale (-1) f.yaxis⟩

/-- Modelled from the spec: `Joint.beam_side_incidence` is not under `src/` (it
lives in the joint base class outside the provided sources).  Per §3 and §4.3 of
the spec, a beam exposes six ordered faces — 4 lateral faces (indices 0-3, the
order also used throughout butt_joint.py via `faces[0:4]` and `% 4` arithmetic)
followed by the 2 end faces (indices 4-5) — and the ranking helper returns, for
each face index, the angle between that face's normal and the direction of
interest.  The per-face angles are taken as a parameter; `min(face_angles,
key=face_angles.get)` (l_butt.py:85) picks the first index attaining the minimal
angle in index order. -/
def minIncidenceFace (faceAngles : Fin 6 → ℚ) : Fin 6 :=
  (List.finRange 6).foldl (fun best i => if faceAngles i < faceAngles best then i else best) 0

/-- The error data of `BeamJoinningError` (raised with `beams=self.beams`,
`joint=self` and a debug message; the joint instance is the method receiver and is
not part of this state-free model). -/
structure JoinErr where
  debugInfo : String
deriving DecidableEq, Repr

/-- `LButtJoint.get_main_cutting_plane` (l_butt.py:79-91): ranks all six
cross-beam faces against the main beam, takes the face with the smallest
incidence angle, raises `BeamJoinningError` when `face_index in [5, 6]`, and
otherwise returns the face frame with flipped normal.  `faceAngles` are the
incidence angles, `faces` the cross beam's six face frames. -/
def lbuttGetMainCuttingPlane (faceAngles : Fin 6 → ℚ) (faces : Fin 6 → Frame3) :
    Except JoinErr Frame3 :=
  let faceIndex := minIncidenceFace faceAngles
  if faceIndex.val = 5 ∨ faceIndex.val = 6 then
    .error ⟨"Cannot join to end faces"⟩
  else
    .ok (flipFrame (faces faceIndex))

/-! ## French ridge lap joint (french_ridge_lap.py) -/

/-- The cross-section data of a beam used by
`FrenchRidgeLapJoint.check_geometry`. -/
structure FRBeam where
  width : ℚ
  height : ℚ
deriving DecidableEq, Repr

/-- The error data of the `BeamJoinningError` raised by `check_geometry`
(french_ridge_lap.py:120, 123, 139-145, 156-162): the two beams (`beams=self.beams`),
and the debug message; the joint instance is the method receiver. -/
structure FRLError where
  mainBeam : Option FRBeam
  crossBeam : Option FRBeam
  debugInfo : String
deriving DecidableEq, Repr

/-- `FrenchRidgeLapJoint.check_geometry` (french_ridge_lap.py:115-163).

The two face-alignment chains test `cross_vectors(main.frame.xaxis,
cross.frame.xaxis)` against each beam's ±Y/±Z axes with `angle_vectors` and a
`0.001` rad tolerance — transcendental tests whose outcomes are abstracted as
`alignMain`/`alignCross` (`some i` = the chain selected reference face `i`,
`none` = no branch matched, i.e. the final `else` raises).  `flip_lap`
(french_ridge_lap.py:81-94) only swaps the two role beams and cannot affect the
symmetric size test, so it is left implicit in the alignment parameters. -/
def frlCheckGeometry (mainBeam crossBeam : Option FRBeam)
    (alignMain alignCross : Option ℕ) : Except FRLError Unit :=
  match mainBeam, crossBeam with
  | some mb, some cb =>
    if mb.width = cb.width ∧ mb.height = cb.height then
      match alignMain with
      | none => .error ⟨some mb, some cb, "part not aligned with corner normal, no French Ridge Lap possible"⟩
      | some _ =>
        match alignCross with
        | none => .error ⟨some mb, some cb, "part not aligned with corner normal, no French Ridge Lap possible"⟩
        | some _ => .ok ()
    else
      .error ⟨some mb, some cb, "beams are not of same size"⟩
  | mb, cb => .error ⟨mb, cb, "beams not set"⟩

/-! ## Theorems -/

/-- C1: for beams whose centrelines are not parallel (skew branch) and whose
clamped contact points are within `max_distance`, `find_topology` classifies by
the near-end test, evaluated independently per beam: both near-end gives `TOPO_L`
in input order; only beam A near-end gives `TOPO_T` with A first (main); only
beam B near-end gives `TOPO_T` with B first; neither gives `TOPO_X` in input
order. -/
theorem find_topology_skew_near_end_classification
    (sameDir : Vec3 → Vec3 → Bool) (a1 a2 b1 b2 : Vec3) (maxDistance : Option ℚ)
    (hclose :
      exceedMaxDistance (clampedA a1 a2 b1 b2) (clampedB a1 a2 b1 b2) maxDistance
        solverTol = false) :
    (nearEndA a1 a2 b1 b2 maxDistance = true → nearEndB a1 a2 b1 b2 maxDistance = true →
      findTopology false sameDir a1 a2 b1 b2 maxDistance = (.topoL, some .A, some .B)) ∧
    (nearEndA a1 a2 b1 b2 maxDistance = true → nearEndB a1 a2 b1 b2 maxDistance = false →
      findTopology false sameDir a1 a2 b1 b2 maxDistance = (.topoT, some .A, some .B)) ∧
    (nearEndA a1 a2 b1 b2 maxDistance = false → nearEndB a1 a2 b1 b2 maxDistance = true →
      findTopology false sameDir a1 a2 b1 b2 maxDistance = (.topoT, some .B, some .A)) ∧
    (nearEndA a1 a2 b1 b2 maxDistance = false → nearEndB a1 a2 b1 b2 maxDistance = false →
      findTopology false sameDir a1 a2 b1 b2 maxDistance = (.topoX, some .A, some .B)) := by
  refine ⟨fun hxa hxb => ?_, fun hxa hxb => ?_, fun hxa hxb => ?_, fun hxa hxb => ?_⟩ <;>
    simp [findTopology, hclose, hxa, hxb]

/-- Witness for C1: an exact right-angle T configuration.  Beam A runs from
`(0,0,0)` to `(0,10,0)`; beam B runs from `(-5,10,0)` to `(5,10,0)`, so A's
endpoint lies on B's span at B's midpoint; with `max_distance = 1/10` the solver
returns `TOPO_T` with beam A (the beam whose endpoint touches) as main. -/
theorem find_topology_skew_right_angle_t_witness :
    findTopology false (fun _ _ => false) ⟨0, 0, 0⟩ ⟨0, 10, 0⟩ ⟨-5, 10, 0⟩ ⟨5, 10, 0⟩
      (some (1 / 10)) = (.topoT, some .A, some .B) := by
  have h :=
    (find_topology_skew_near_end_classification (fun _ _ => false)
      ⟨0, 0, 0⟩ ⟨0, 10, 0⟩ ⟨-5, 10, 0⟩ ⟨5, 10, 0⟩ (some (1 / 10))
      (by norm_num [exceedMaxDistance, clampedA, clampedB, tParamA, tParamB, calcT,
        normalRefA, normalRefB, distSq, vdot, vsub, vcross, vadd, vscale])).2.1
  exact h
    (by norm_num [nearEndA, isNearEnd, tParamA, calcT, normalRefB, distSq, vdot, vsub,
      vcross, solverTol])
    (by norm_num [nearEndB, isNearEnd, tParamB, calcT, normalRefA, distSq, vdot, vsub,
      vcross, solverTol])

/-- C2: for beams in the parallel branch whose lines are within `max_distance`,
`find_topology` returns `TOPO_I` in input order exactly when exactly one of the
four endpoint-to-endpoint combinations is within `max_distance` and the outgoing
direction vectors from the matching endpoints do not point the same way; with
zero or two-or-more matching endpoint pairs, or with same-way outgoing vectors
(overlap), it returns `TOPO_UNKNOWN` with beams `None, None`. -/
theorem find_topology_parallel_endpoint_classification
    (sameDir : Vec3 → Vec3 → Bool) (a1 a2 b1 b2 : Vec3) (maxDistance : Option ℚ)
    (hline : exceedMaxDistance a1 (closestOnLine a1 b1 b2) maxDistance solverTol = false) :
    (meetCount a1 a2 b1 b2 maxDistance ≠ 1 →
      findTopology true sameDir a1 a2 b1 b2 maxDistance = (.unknown, none, none)) ∧
    (∀ ia ib : Bool, meetCount a1 a2 b1 b2 maxDistance = 1 →
      firstMeet a1 a2 b1 b2 maxDistance = some (ia, ib) →
      (sameDir (outgoingVec a1 a2 ia) (outgoingVec b1 b2 ib) = true →
        findTopology true sameDir a1 a2 b1 b2 maxDistance = (.unknown, none, none)) ∧
      (sameDir (outgoingVec a1 a2 ia) (outgoingVec b1 b2 ib) = false →
        findTopology true sameDir a1 a2 b1 b2 maxDistance = (.topoI, some .A, some .B))) := by
  constructor
  · intro hcnt
    simp [findTopology, hline, hcnt]
  · intro ia ib hcnt hfirst
    constructor <;> intro hsd <;> simp [findTopology, hline, hcnt, hfirst, hsd]

/-- Witness for C2: two collinear beams sharing exactly one endpoint.  Beam A runs
from `(0,0,0)` to `(10,0,0)` and beam B from `(10,0,0)` to `(20,0,0)`; with
`max_distance = 1` exactly the pair `(a2, b1)` meets, the outgoing vectors point
away from each other, and the solver returns `TOPO_I` in input order. -/
theorem find_topology_parallel_topo_i_witness :
    findTopology true (fun u v => decide (0 < vdot u v)) ⟨0, 0, 0⟩ ⟨10, 0, 0⟩
      ⟨10, 0, 0⟩ ⟨20, 0, 0⟩ (some 1) = (.topoI, some .A, some .B) := by
  have h :=
    (find_topology_parallel_endpoint_classification (fun u v => decide (0 < vdot u v))
      ⟨0, 0, 0⟩ ⟨10, 0, 0⟩ ⟨10, 0, 0⟩ ⟨20, 0, 0⟩ (some 1)
      (by norm_num [exceedMaxDistance, closestOnLine, distSq, vdot, vsub, vadd,
        vscale])).2 true false
  refine (h ?_ ?_).2 ?_
  · norm_num [meetCount, meetFlags, endCombs, endPt, exceedMaxDistance, distSq, vdot,
      vsub, solverTol, List.count]
  · norm_num [firstMeet, meetFlags, endCombs, endPt, exceedMaxDistance, distSq, vdot,
      vsub, solverTol, List.find?, List.zip]
  · norm_num [outgoingVec, endPt, vdot, vsub]

/-- C3 evidence (code bug): recomputing `add_features` with unchanged geometry
duplicates this joint's features.  A T-butt joint with `drill_diameter > 0` and
`mill_depth = 0` run twice from a fresh state leaves two drill features on the
cross beam (`[2, 6]`: one object per invocation) and two cut features on the main
beam (`[1, 5]`: the bookkeeping list stored the raw plane, so removal found
nothing); an L-butt joint with `extend_cross = True` run twice leaves two cut
features on the cross beam (`[0, 2]`), since `remove_features` is only ever
called on the main beam. -/
theorem add_features_recompute_duplicates :
    (tbuttAddFeatures false false false true true
      (tbuttAddFeatures false false false true true ⟨[], [], [], 0⟩)).crossFeats = [2, 6] ∧
    (tbuttAddFeatures false false false true true
      (tbuttAddFeatures false false false true true ⟨[], [], [], 0⟩)).mainFeats = [1, 5] ∧
    (lbuttAddFeatures true (lbuttAddFeatures true ⟨[], [], [], 0⟩)).crossFeats = [0, 2] := by
  decide

/-- C4: the pocket length recorded into `btlx_params_cross["length"]` by
`subtraction_volume` is the distance between the two side-intersection lines plus
the correction `|tan(entry_angle) * mill_depth|`, floored at 61.5 units: it is
never below 61.5, and equals 61.5 exactly whenever the raw sum is smaller. -/
theorem subtraction_volume_pocket_length_floored (d t m : ℚ) :
    61.5 ≤ pocketLength d t m ∧ pocketLength d t m = max (d + |t * m|) 61.5 := by
  unfold pocketLength
  split_ifs with h
  · exact ⟨le_refl _, (max_eq_right h.le).symm⟩
  · exact ⟨not_lt.mp h, (max_eq_left (not_lt.mp h)).symm⟩

/-- C5: the parameter record emitted by `calc_params_birdsmouth` satisfies
`Angle1 <= Angle2`; when the raw angles had to be swapped, both inclinations are
swapped as well and the remapped inclination becomes `180 - Inclination1`;
otherwise all four values pass through unchanged. -/
theorem birdsmouth_canonical_angle_order (a1 a2 i1 i2 : ℚ) :
    (birdsmouthCanon a1 a2 i1 i2).1 ≤ (birdsmouthCanon a1 a2 i1 i2).2.1 ∧
    (a2 < a1 → birdsmouthCanon a1 a2 i1 i2 = (a2, a1, i2, 180 - i1)) ∧
    (a1 ≤ a2 → birdsmouthCanon a1 a2 i1 i2 = (a1, a2, i1, i2)) := by
  unfold birdsmouthCanon
  split_ifs with h
  · exact ⟨h.le, fun _ => rfl, fun h2 => absurd h (not_lt.mpr h2)⟩
  · exact ⟨not_lt.mp h, fun h2 => absurd h2 h, fun _ => rfl⟩

/-- Witness for C5: an obtuse configuration with raw `Angle1 = 120 > Angle2 = 60`
and raw inclinations `(80, 70)` is emitted as `(60, 120, 70, 100)`. -/
theorem birdsmouth_canonical_angle_order_witness :
    birdsmouthCanon 120 60 80 70 = (60, 120, 70, 100) := by
  have h := (birdsmouth_canonical_angle_order 120 60 80 70).2.1 (by norm_num)
  rw [h]
  norm_num

/-- C6 evidence (code bug): `check_joint_boolean` never raises (it is a total
function of the state and the two dot products), but its step-joint validity
guard `(1 - 0.001) < d < 0.001` — a Python chained comparison — is unsatisfiable,
so the resulting `stepjoint` flag is `False` for every state and every geometry:
no configuration whatsoever leaves `stepjoint` enabled, contradicting the claimed
valid case. -/
theorem check_joint_boolean_stepjoint_never_true (st : ButtJointState) (d1 d2 : ℚ) :
    (checkJointBoolean st d1 d2).stepjoint = false := by
  have hbv : (birdsmouthValidity st d2).stepjoint = false := by
    unfold birdsmouthValidity
    split_ifs <;> rfl
  have hguard : ¬(1 - 1 / 1000 < d1 ∧ d1 < 1 / 1000) := by
    rintro ⟨hg1, hg2⟩
    linarith
  unfold checkJointBoolean
  by_cases hsj : st.stepjoint = true
  · rw [if_pos hsj, if_neg hguard]
  · rw [if_neg hsj]
    split_ifs
    · exact hbv
    · exact hbv

/-- Counterexample for C7: at a computed inclination of exactly 0 the emitted
record is `(Inclination, StartX) = (90, 100)` — the raw `StartX = 100` passes
through unshifted — whereas the claimed laterally shifted value
`StartX - ((cross_width / 2) / sin(inclination) - 20)` (read at `sin 0 = 0` with
the ℚ convention `x / 0 = 0`, hence a shift of `-(-20)`) is `120 ≠ 100`. -/
theorem calc_params_drilling_zero_inclination_counterexample :
    calcParamsDrilling 0 100 80 0 false = ⟨90, 100⟩ ∧
    (100 : ℚ) ≠ 100 - (80 / 2 / 0 - 20) := by
  constructor
  · norm_num [calcParamsDrilling]
  · norm_num

/-- C7 amended: for a computed inclination of exactly 0, `calc_params_drilling`
reports `Inclination = 90.0` and leaves `StartX` unchanged; the lateral
`(cross_width/2)/sin(inclination) - 20` shift only happens in the
`0 < inclination < 45` branch. -/
theorem calc_params_drilling_zero_inclination_fallback
    (startX crossWidth sinInclination : ℚ) (dotPositive : Bool) :
    calcParamsDrilling 0 startX crossWidth sinInclination dotPositive = ⟨90, startX⟩ := by
  simp [calcParamsDrilling]

/-- C8 evidence (code bug): `LButtJoint.get_main_cutting_plane` only rejects
`face_index in [5, 6]`, but the end faces are indices 4 and 5.  When the face
with the smallest incidence angle is end face 4, no error is raised and the end
face's (flipped) frame is returned; end face 5 is rejected as specified. -/
theorem lbutt_end_face_four_not_rejected :
    minIncidenceFace (fun f => if f.val = 4 then 0 else 1) = 4 ∧
    lbuttGetMainCuttingPlane (fun f => if f.val = 4 then 0 else 1)
        (fun _ => ⟨⟨0, 0, 0⟩, ⟨1, 0, 0⟩, ⟨0, 1, 0⟩⟩) =
      .ok ⟨⟨0, 0, 0⟩, ⟨1, 0, 0⟩, ⟨0, -1, 0⟩⟩ ∧
    lbuttGetMainCuttingPlane (fun f => if f.val = 5 then 0 else 1)
        (fun _ => ⟨⟨0, 0, 0⟩, ⟨1, 0, 0⟩, ⟨0, 1, 0⟩⟩) =
      .error ⟨"Cannot join to end faces"⟩ := by
  have hmin4 : minIncidenceFace (fun f => if f.val = 4 then 0 else 1) = 4 := by decide
  have hmin5 : minIncidenceFace (fun f => if f.val = 5 then 0 else 1) = 5 := by decide
  refine ⟨hmin4, ?_, ?_⟩
  · unfold lbuttGetMainCuttingPlane
    rw [hmin4, if_neg (by decide)]
    norm_num [flipFrame, vscale]
  · unfold lbuttGetMainCuttingPlane
    rw [hmin5, if_pos (by decide)]

/-- C9: `FrenchRidgeLapJoint.check_geometry` raises a `BeamJoinningError` carrying
both beams and a debug message whenever the two beams have unequal width or
unequal height — for any outcome of the later face-alignment selection, i.e. the
size check happens first — and likewise raises when either role beam is unset. -/
theorem frl_check_geometry_guards
    (mb cb : FRBeam) (alignMain alignCross : Option ℕ)
    (hsz : ¬(mb.width = cb.width ∧ mb.height = cb.height)) :
    frlCheckGeometry (some mb) (some cb) alignMain alignCross =
      .error ⟨some mb, some cb, "beams are not of same size"⟩ ∧
    (∀ (b : Option FRBeam) (aM aC : Option ℕ),
      frlCheckGeometry none b aM aC = .error ⟨none, b, "beams not set"⟩) ∧
    (∀ (a : Option FRBeam) (aM aC : Option ℕ),
      frlCheckGeometry a none aM aC = .error ⟨a, none, "beams not set"⟩) := by
  refine ⟨?_, ?_, ?_⟩
  · simp [frlCheckGeometry, hsz]
  · intro b aM aC
    cases b <;> rfl
  · intro a aM aC
    cases a <;> rfl

/-- Witness for C9: beams of 100×100 and 100×80 cross-section are rejected with
the size error. -/
theorem frl_check_geometry_size_witness :
    frlCheckGeometry (some ⟨100, 100⟩) (some ⟨100, 80⟩) none none =
      .error ⟨some ⟨100, 100⟩, some ⟨100, 80⟩, "beams are not of same size"⟩ :=
  (frl_check_geometry_guards ⟨100, 100⟩ ⟨100, 80⟩ none none (by norm_num)).1

/-- C10: `ButtJoint.__init__` (and hence `TButtJoint.__init__`) stores
`stepjoint = False` regardless of the argument passed, while `birdsmouth` takes
the passed value; only `ButtJoint.__from_data__` assigns the stored `stepjoint`
value directly. -/
theorem butt_joint_init_ignores_stepjoint (m d : ℚ) (b s : Bool) (v : ButtJointData) :
    (buttJointInit m d b s).stepjoint = false ∧
    (buttJointInit m d b s).birdsmouth = b ∧
    (tbuttJointInit m d b s).stepjoint = false ∧
    (buttJointFromData v).stepjoint = v.stepjoint :=
  ⟨rfl, rfl, rfl, rfl⟩

end CompasTimber
